import Mathlib

/-!
Verification of `createMovie` from `src/hvpy/helpers.py`.

The Python function submits a movie-rendering job (`queueMovie`), polls its
status (`getMovieStatus`) in a `while True` loop bounded by a wall-clock
deadline, downloads the artifact (`downloadMovie`) on completion, and
resolves an output filename.

Shallow embedding: the three remote calls and `time.time()` are oracles.
A run is driven by the submit response and a list of per-iteration
observations, each carrying the status response of that iteration's
`getMovieStatus` call together with the value `time.time()` would return
at that iteration's deadline comparison.  The embedding records how many
polls, sleeps and deadline comparisons occur and which `downloadMovie`
calls are issued, mirroring the statement order of the Python loop body:

    if status["status"] in [0, 1]: time.sleep(3)
    if status["status"] == 2: break
    if time.time() > timeout_counter: raise RuntimeError(timeout message)
    if status["status"] == 3: raise RuntimeError(status["error"])
-/

/-- Models a Python `datetime`; only the `str(d.date())` rendering is used
by `createMovie` (for the synthesized filename). -/
structure PyDatetime where
  dateStr : String
  deriving DecidableEq, Repr

/-- The full parameter list of `createMovie` (`src/hvpy/helpers.py`, lines 16-48),
in source order.  Python `float` is modelled as `Rat`, `Optional[X]` as
`Option X`, `Union[str, Path]` as `String`. -/
structure CreateMovieParams where
  startTime : PyDatetime
  endTime : PyDatetime
  layers : String
  events : String
  eventsLabels : Bool
  imageScale : Rat
  format : String
  frameRate : String
  maxFrames : Option String
  scale : Option Bool
  scaleType : Option String
  scaleX : Option Rat
  scaleY : Option Rat
  movieLength : Option Rat
  watermark : Bool
  width : Option String
  height : Option String
  x0 : Option String
  y0 : Option String
  x1 : Option String
  y1 : Option String
  x2 : Option String
  y2 : Option String
  size : Int
  movieIcons : Option Int
  followViewport : Option Int
  reqObservationDate : Option PyDatetime
  overwrite : Bool
  filename : Option String
  hq : Bool
  timeout : Rat
  deriving DecidableEq, Repr

/-- The argument set passed to `queueMovie`: `locals()` minus the four popped
keys `overwrite`, `filename`, `hq`, `timeout` (helpers.py lines 87-94). -/
structure QueueMovieArgs where
  startTime : PyDatetime
  endTime : PyDatetime
  layers : String
  events : String
  eventsLabels : Bool
  imageScale : Rat
  format : String
  frameRate : String
  maxFrames : Option String
  scale : Option Bool
  scaleType : Option String
  scaleX : Option Rat
  scaleY : Option Rat
  movieLength : Option Rat
  watermark : Bool
  width : Option String
  height : Option String
  x0 : Option String
  y0 : Option String
  x1 : Option String
  y1 : Option String
  x2 : Option String
  y2 : Option String
  size : Int
  movieIcons : Option Int
  followViewport : Option Int
  reqObservationDate : Option PyDatetime
  deriving DecidableEq, Repr

/-- `input_params` after the four `pop` calls (helpers.py lines 87-93). -/
def queueArgsOf (p : CreateMovieParams) : QueueMovieArgs :=
  ⟨p.startTime, p.endTime, p.layers, p.events, p.eventsLabels, p.imageScale,
   p.format, p.frameRate, p.maxFrames, p.scale, p.scaleType, p.scaleX, p.scaleY,
   p.movieLength, p.watermark, p.width, p.height, p.x0, p.y0, p.x1, p.y1,
   p.x2, p.y2, p.size, p.movieIcons, p.followViewport, p.reqObservationDate⟩

/-- The `queueMovie` response `res`: optional `error` field plus the `id` and
`token` used by the rest of the run. -/
structure QueueMovieResponse where
  error : Option String
  id : String
  token : String
  deriving DecidableEq, Repr

/-- One polling-loop iteration's environment: the `getMovieStatus` response
(`status` code and optional `error` field) and the value `time.time()` would
return at the deadline comparison of that iteration. -/
structure StatusObs where
  status : Int
  error : Option String
  tcheck : Rat
  deriving DecidableEq, Repr

/-- The keyword arguments of the `downloadMovie` call (helpers.py lines 112-116). -/
structure DownloadMovieArgs where
  id : String
  format : String
  hq : Bool
  deriving DecidableEq, Repr

/-- Terminal outcome of a `createMovie` run. `remoteError` is a
`RuntimeError` carrying a service-supplied message (submit error or the
status-3 `error` field); `timeoutError` is the
`RuntimeError(f"Exceeded timeout of ... minutes.")`; `keyError` is the
Python `KeyError` from an unguarded dict lookup; `stillPolling` means the
supplied observation list was exhausted with the loop still running. -/
inductive Outcome where
  | ok (path : String)
  | remoteError (msg : String)
  | timeoutError
  | keyError (key : String)
  | stillPolling
  deriving DecidableEq, Repr

/-- Event counts of the polling loop: `getMovieStatus` calls, `time.sleep(3)`
calls, and evaluations of the comparison `time.time() > timeout_counter`. -/
structure LoopTrace where
  polls : Nat
  sleeps : Nat
  timeChecks : Nat
  deriving DecidableEq, Repr

/-- How the `while True` loop ended. -/
inductive LoopResult where
  | complete
  | timedOut
  | failed (err : Option String)
  | exhausted
  deriving DecidableEq, Repr

/-- Number of `time.sleep(3)` calls in one iteration:
`if status["status"] in [0, 1]: time.sleep(3)` (helpers.py lines 104-105). -/
def sleepCount (o : StatusObs) : Nat :=
  if o.status = 0 ∨ o.status = 1 then 1 else 0

/-- The `while True` loop of helpers.py lines 98-111, iterated over the
observation list.  Each iteration: poll (always), sleep when the status is
0 or 1, `break` on status 2 (before the deadline comparison), raise the
timeout error when `time.time() > timeout_counter`, raise
`RuntimeError(status["error"])` on status 3, otherwise fall through to the
next iteration. -/
def runPollLoop (deadline : Rat) : List StatusObs → LoopTrace × LoopResult
  | [] => (⟨0, 0, 0⟩, .exhausted)
  | o :: rest =>
    if o.status = 2 then
      (⟨1, sleepCount o, 0⟩, .complete)
    else if o.tcheck > deadline then
      (⟨1, sleepCount o, 1⟩, .timedOut)
    else if o.status = 3 then
      (⟨1, sleepCount o, 1⟩, .failed o.error)
    else
      (⟨(runPollLoop deadline rest).1.polls + 1,
        (runPollLoop deadline rest).1.sleeps + sleepCount o,
        (runPollLoop deadline rest).1.timeChecks + 1⟩,
       (runPollLoop deadline rest).2)

/-- Python truthiness of `res.get("error")`: a missing key and the empty
string are falsy, a non-empty string is truthy. -/
def pyTruthy : Option String → Bool
  | none => false
  | some s => !s.isEmpty

/-- Filename resolution of helpers.py lines 117-120:
`f"{res['id']}_{startTime.date()}_{endTime.date()}.{format}"` when the
caller passed no filename, else `f"{filename}.{format}"`. -/
def resolveFilename (filename : Option String) (id : String)
    (startTime endTime : PyDatetime) (format : String) : String :=
  match filename with
  | none => id ++ "_" ++ startTime.dateStr ++ "_" ++ endTime.dateStr ++ "." ++ format
  | some f => f ++ "." ++ format

/-- Outcome of a finished run as a function of how the loop ended.
On `complete` the run proceeds to `downloadMovie`, filename resolution,
`save_file` and returns `Path(filename)`; a `failed` result re-reads the
`error` field of the status response (`RuntimeError(status["error"])`),
which is a `KeyError` when the field is absent. -/
def outcomeOfResult (p : CreateMovieParams) (res : QueueMovieResponse) :
    LoopResult → Outcome
  | .complete =>
    .ok (resolveFilename p.filename res.id p.startTime p.endTime p.format)
  | .timedOut => .timeoutError
  | .failed (some e) => .remoteError e
  | .failed none => .keyError "error"
  | .exhausted => .stillPolling

/-- Everything observable about one `createMovie` run: the argument set
passed to `queueMovie`, the loop's event counts, the list of
`downloadMovie` calls (with their arguments) and the outcome. -/
structure RunResult where
  queueArgs : QueueMovieArgs
  polls : Nat
  sleeps : Nat
  timeChecks : Nat
  fetches : List DownloadMovieArgs
  outcome : Outcome
  deriving DecidableEq, Repr

/-- The body of `createMovie` (helpers.py lines 87-126) over the oracle
inputs: submit response `res`, the value `t0` of `time.time()` at line 97
(so `timeout_counter = t0 + 60 * timeout`), and the per-iteration
observations.  If `res.get("error")` is truthy it raises
`RuntimeError(res["error"])` before any poll; otherwise it runs the loop
and, on `break`, calls `downloadMovie(id=res["id"], format=format, hq=hq)`
exactly once and returns the resolved path. -/
def createMovie (p : CreateMovieParams) (res : QueueMovieResponse) (t0 : Rat)
    (polls : List StatusObs) : RunResult :=
  if pyTruthy res.error then
    ⟨queueArgsOf p, 0, 0, 0, [], .remoteError (res.error.getD "")⟩
  else
    ⟨queueArgsOf p,
     (runPollLoop (t0 + 60 * p.timeout) polls).1.polls,
     (runPollLoop (t0 + 60 * p.timeout) polls).1.sleeps,
     (runPollLoop (t0 + 60 * p.timeout) polls).1.timeChecks,
     if (runPollLoop (t0 + 60 * p.timeout) polls).2 = LoopResult.complete
       then [⟨res.id, p.format, p.hq⟩] else [],
     outcomeOfResult p res (runPollLoop (t0 + 60 * p.timeout) polls).2⟩

/-- An iteration that falls through to the next poll: status not 2, the
deadline comparison false (`time.time() > timeout_counter` is strict),
status not 3. -/
def continuesObs (deadline : Rat) (o : StatusObs) : Prop :=
  o.status ≠ 2 ∧ ¬ o.tcheck > deadline ∧ o.status ≠ 3

instance (deadline : Rat) (o : StatusObs) : Decidable (continuesObs deadline o) := by
  unfold continuesObs
  infer_instance

/-- Concrete parameter vector used by counterexamples and witnesses. -/
def sampleParams : CreateMovieParams :=
  ⟨⟨"2024-01-01"⟩, ⟨"2024-01-02"⟩, "[10,1,100]", "[AR,all,1]", true, 1, "mp4", "15",
   none, none, none, none, none, none, true, none, none,
   none, none, none, none, none, none, 0, none, none, none,
   false, none, false, 5⟩

/-- Concrete successful submit response used by counterexamples and witnesses. -/
def sampleRes : QueueMovieResponse := ⟨none, "42", "sample-token"⟩

/-! ### Loop lemmas -/

/-- A status-2 iteration exits the loop before the deadline comparison. -/
theorem runPollLoop_cons_complete (d : Rat) (o : StatusObs) (rest : List StatusObs)
    (h2 : o.status = 2) :
    runPollLoop d (o :: rest) = (⟨1, sleepCount o, 0⟩, .complete) := by
  simp [runPollLoop, h2]

/-- A non-status-2 iteration past the deadline exits with the timeout error. -/
theorem runPollLoop_cons_timeout (d : Rat) (o : StatusObs) (rest : List StatusObs)
    (h2 : o.status ≠ 2) (ht : o.tcheck > d) :
    runPollLoop d (o :: rest) = (⟨1, sleepCount o, 1⟩, .timedOut) := by
  simp [runPollLoop, h2, ht]

/-- A status-3 iteration at or before the deadline exits with the status
response's `error` field. -/
theorem runPollLoop_cons_failed (d : Rat) (o : StatusObs) (rest : List StatusObs)
    (ht : ¬ o.tcheck > d) (h3 : o.status = 3) :
    runPollLoop d (o :: rest) = (⟨1, sleepCount o, 1⟩, .failed o.error) := by
  have h2 : o.status ≠ 2 := by rw [h3]; decide
  simp [runPollLoop, h2, ht, h3]

/-- A continuing iteration adds one poll, one deadline comparison and its
sleep count, and hands control to the rest of the observation list. -/
theorem runPollLoop_cons_cont (d : Rat) (o : StatusObs) (rest : List StatusObs)
    (h : continuesObs d o) :
    runPollLoop d (o :: rest) =
      (⟨(runPollLoop d rest).1.polls + 1,
        (runPollLoop d rest).1.sleeps + sleepCount o,
        (runPollLoop d rest).1.timeChecks + 1⟩,
       (runPollLoop d rest).2) := by
  obtain ⟨h2, ht, h3⟩ := h
  simp [runPollLoop, h2, ht, h3]

/-- Skipping a prefix of continuing iterations: the loop result is that of
the remaining observations, and the counts add up (one poll and one
deadline comparison per skipped iteration, one sleep per skipped iteration
with status 0 or 1). -/
theorem runPollLoop_append (d : Rat) (pre rest : List StatusObs)
    (h : ∀ o ∈ pre, continuesObs d o) :
    runPollLoop d (pre ++ rest) =
      (⟨(runPollLoop d rest).1.polls + pre.length,
        (runPollLoop d rest).1.sleeps + (pre.map sleepCount).sum,
        (runPollLoop d rest).1.timeChecks + pre.length⟩,
       (runPollLoop d rest).2) := by
  induction pre with
  | nil => simp
  | cons o pre ih =>
    have ho : continuesObs d o := h o (List.mem_cons_self o pre)
    have ih' := ih (fun x hx => h x (List.mem_cons_of_mem o hx))
    rw [List.cons_append, runPollLoop_cons_cont d o (pre ++ rest) ho, ih']
    simp
    constructor
    · omega
    constructor
    · omega
    · omega

/-- Sleeps of a run are counted per iteration with status 0 or 1. -/
theorem sum_sleepCount_eq_countP (l : List StatusObs) :
    (l.map sleepCount).sum = l.countP (fun o => decide (o.status = 0 ∨ o.status = 1)) := by
  induction l with
  | nil => rfl
  | cons o l ih =>
    rw [List.map_cons, List.sum_cons, List.countP_cons, ih, sleepCount]
    by_cases h : o.status = 0 ∨ o.status = 1
    · simp [h, Nat.add_comm]
    · simp [h]

/-! ### Projections of a run with a successful submit -/

/-- With a falsy submit `error` field, the run's outcome is determined by the
loop result. -/
theorem createMovie_outcome (p : CreateMovieParams) (res : QueueMovieResponse)
    (t0 : Rat) (polls : List StatusObs) (hqe : pyTruthy res.error = false) :
    (createMovie p res t0 polls).outcome =
      outcomeOfResult p res (runPollLoop (t0 + 60 * p.timeout) polls).2 := by
  simp [createMovie, hqe]

/-- With a falsy submit `error` field, `downloadMovie` is called exactly when
the loop ended with `break`, with arguments `id`, `format`, `hq`. -/
theorem createMovie_fetches (p : CreateMovieParams) (res : QueueMovieResponse)
    (t0 : Rat) (polls : List StatusObs) (hqe : pyTruthy res.error = false) :
    (createMovie p res t0 polls).fetches =
      if (runPollLoop (t0 + 60 * p.timeout) polls).2 = LoopResult.complete
        then [⟨res.id, p.format, p.hq⟩] else [] := by
  simp [createMovie, hqe]

/-- Poll count of a run with a falsy submit `error` field. -/
theorem createMovie_polls (p : CreateMovieParams) (res : QueueMovieResponse)
    (t0 : Rat) (polls : List StatusObs) (hqe : pyTruthy res.error = false) :
    (createMovie p res t0 polls).polls =
      (runPollLoop (t0 + 60 * p.timeout) polls).1.polls := by
  simp [createMovie, hqe]

/-- Sleep count of a run with a falsy submit `error` field. -/
theorem createMovie_sleeps (p : CreateMovieParams) (res : QueueMovieResponse)
    (t0 : Rat) (polls : List StatusObs) (hqe : pyTruthy res.error = false) :
    (createMovie p res t0 polls).sleeps =
      (runPollLoop (t0 + 60 * p.timeout) polls).1.sleeps := by
  simp [createMovie, hqe]

/-- Deadline-comparison count of a run with a falsy submit `error` field. -/
theorem createMovie_timeChecks (p : CreateMovieParams) (res : QueueMovieResponse)
    (t0 : Rat) (polls : List StatusObs) (hqe : pyTruthy res.error = false) :
    (createMovie p res t0 polls).timeChecks =
      (runPollLoop (t0 + 60 * p.timeout) polls).1.timeChecks := by
  simp [createMovie, hqe]

/-! ### C1 -/

/-- C1, counterexample.  The claim states that a poll returning terminal
status 3 at or after the deadline still yields the `RemoteError` with the
service message.  With deadline `0 + 60 * 5 = 300` and a single poll
returning status 3 with message "boom" at time 301, the code raises the
timeout error instead: the comparison `time.time() > timeout_counter`
precedes the status-3 check. -/
theorem C1_counterexample :
    (createMovie sampleParams sampleRes 0
        [⟨3, some "boom", 301⟩]).outcome = Outcome.timeoutError ∧
    Outcome.timeoutError ≠ Outcome.remoteError "boom" := by
  constructor
  · norm_num [createMovie, runPollLoop, outcomeOfResult, pyTruthy, sampleParams, sampleRes]
  · decide

/-- C1 (amended): in each polling iteration the status-2 check precedes the
deadline check, so a poll returning status 2 at or after the deadline still
completes the run; the deadline check precedes the status-3 check, so a
status 3 observed strictly after the deadline yields the timeout error, and
only a status 3 observed at or before the deadline yields the
service-message error; a timeout error is raised only when the status of
that iteration is not 2 (it may be the terminal 3). -/
theorem C1_terminal_vs_deadline (p : CreateMovieParams) (res : QueueMovieResponse)
    (t0 : Rat) (pre : List StatusObs) (o : StatusObs) (rest : List StatusObs)
    (hqe : pyTruthy res.error = false)
    (hpre : ∀ x ∈ pre, continuesObs (t0 + 60 * p.timeout) x) :
    (o.status = 2 →
      (createMovie p res t0 (pre ++ o :: rest)).outcome =
        Outcome.ok (resolveFilename p.filename res.id p.startTime p.endTime p.format)) ∧
    (o.status ≠ 2 → o.tcheck > t0 + 60 * p.timeout →
      (createMovie p res t0 (pre ++ o :: rest)).outcome = Outcome.timeoutError) ∧
    (o.status = 3 → ¬ o.tcheck > t0 + 60 * p.timeout →
      (createMovie p res t0 (pre ++ o :: rest)).outcome =
        (match o.error with
         | some e => Outcome.remoteError e
         | none => Outcome.keyError "error")) := by
  have key := runPollLoop_append (t0 + 60 * p.timeout) pre (o :: rest) hpre
  refine ⟨?_, ?_, ?_⟩
  · intro h2
    rw [createMovie_outcome p res t0 _ hqe, key,
      runPollLoop_cons_complete _ o rest h2]
    rfl
  · intro h2 ht
    rw [createMovie_outcome p res t0 _ hqe, key,
      runPollLoop_cons_timeout _ o rest h2 ht]
    rfl
  · intro h3 ht
    rw [createMovie_outcome p res t0 _ hqe, key,
      runPollLoop_cons_failed _ o rest ht h3]
    cases he : o.error <;> rfl

/-- C1, witness for the amended theorem: status 2 past the deadline still
completes; a non-terminal status past the deadline times out; status 3 at
the deadline surfaces the remote message. -/
theorem C1_terminal_vs_deadline_witness :
    (createMovie sampleParams sampleRes 0 [⟨2, none, 400⟩]).outcome
        = Outcome.ok "42_2024-01-01_2024-01-02.mp4" ∧
    (createMovie sampleParams sampleRes 0 [⟨5, none, 400⟩]).outcome
        = Outcome.timeoutError ∧
    (createMovie sampleParams sampleRes 0 [⟨3, some "err", 300⟩]).outcome
        = Outcome.remoteError "err" := by
  refine ⟨?_, ?_, ?_⟩
  · have h := (C1_terminal_vs_deadline sampleParams sampleRes 0 []
      ⟨2, none, 400⟩ [] rfl (by simp)).1 rfl
    exact h.trans rfl
  · have h := (C1_terminal_vs_deadline sampleParams sampleRes 0 []
      ⟨5, none, 400⟩ [] rfl (by simp)).2.1 (by decide)
      (by norm_num [sampleParams])
    exact h
  · have h := (C1_terminal_vs_deadline sampleParams sampleRes 0 []
      ⟨3, some "err", 300⟩ [] rfl (by simp)).2.2 rfl
      (by norm_num [sampleParams])
    exact h.trans rfl

/-! ### C2 -/

/-- C2, counterexample.  The claim states that any run in which some poll
returns status 3 raises an error whose message is exactly the response's
error string.  With deadline 300, a pending poll at time 10 followed by a
status-3 poll with message "server exploded" at time 500 raises the timeout
error instead. -/
theorem C2_counterexample :
    (createMovie sampleParams sampleRes 0
        [⟨0, none, 10⟩, ⟨3, some "server exploded", 500⟩]).outcome
      = Outcome.timeoutError ∧
    (createMovie sampleParams sampleRes 0
        [⟨0, none, 10⟩, ⟨3, some "server exploded", 500⟩]).fetches = [] ∧
    Outcome.timeoutError ≠ Outcome.remoteError "server exploded" := by
  refine ⟨?_, ?_, by decide⟩
  · norm_num [createMovie, runPollLoop, outcomeOfResult, pyTruthy, sampleParams,
      sampleRes]
  · norm_num [createMovie, runPollLoop, pyTruthy, sampleParams, sampleRes]
    decide

/-- C2 (amended): when a poll returns status 3 (all earlier polls having
fallen through), the loop terminates by raising and `downloadMovie` is never
called; the raised error carries exactly the response's error string when
that poll's deadline comparison is still false, and is the timeout error
when the deadline has strictly passed. -/
theorem C2_failed_poll (p : CreateMovieParams) (res : QueueMovieResponse)
    (t0 : Rat) (pre : List StatusObs) (o : StatusObs) (rest : List StatusObs)
    (hqe : pyTruthy res.error = false)
    (hpre : ∀ x ∈ pre, continuesObs (t0 + 60 * p.timeout) x)
    (h3 : o.status = 3) :
    (createMovie p res t0 (pre ++ o :: rest)).fetches = [] ∧
    (¬ o.tcheck > t0 + 60 * p.timeout →
      (createMovie p res t0 (pre ++ o :: rest)).outcome =
        (match o.error with
         | some e => Outcome.remoteError e
         | none => Outcome.keyError "error")) ∧
    (o.tcheck > t0 + 60 * p.timeout →
      (createMovie p res t0 (pre ++ o :: rest)).outcome = Outcome.timeoutError) := by
  have h2 : o.status ≠ 2 := by rw [h3]; decide
  have key := runPollLoop_append (t0 + 60 * p.timeout) pre (o :: rest) hpre
  refine ⟨?_, ?_, ?_⟩
  · rw [createMovie_fetches p res t0 _ hqe, key]
    by_cases ht : o.tcheck > t0 + 60 * p.timeout
    · rw [runPollLoop_cons_timeout _ o rest h2 ht]
      rfl
    · rw [runPollLoop_cons_failed _ o rest ht h3]
      rfl
  · intro ht
    rw [createMovie_outcome p res t0 _ hqe, key,
      runPollLoop_cons_failed _ o rest ht h3]
    cases he : o.error <;> rfl
  · intro ht
    rw [createMovie_outcome p res t0 _ hqe, key,
      runPollLoop_cons_timeout _ o rest h2 ht]
    rfl

/-- C2, witness: a first-poll status 3 with message "bad" at time 100
(deadline 300) raises the remote message and issues no fetch. -/
theorem C2_failed_poll_witness :
    (createMovie sampleParams sampleRes 0 [⟨3, some "bad", 100⟩]).fetches = [] ∧
    (createMovie sampleParams sampleRes 0 [⟨3, some "bad", 100⟩]).outcome
      = Outcome.remoteError "bad" := by
  have h := C2_failed_poll sampleParams sampleRes 0 [] ⟨3, some "bad", 100⟩ []
    rfl (by simp) rfl
  exact ⟨h.1, (h.2.1 (by norm_num [sampleParams])).trans rfl⟩

/-! ### C3 -/

/-- C3 (confirmed): the first poll returning status 2 (all earlier polls
having fallen through) ends the loop at once — the run's poll count is the
prefix length plus one (no further poll), its sleep count covers only the
prefix's status-0/1 iterations (no sleep in the final iteration), the
deadline comparison is evaluated once per prefix iteration and not in the
final one — and `downloadMovie` is called exactly once. -/
theorem C3_first_complete (p : CreateMovieParams) (res : QueueMovieResponse)
    (t0 : Rat) (pre : List StatusObs) (o : StatusObs) (rest : List StatusObs)
    (hqe : pyTruthy res.error = false)
    (hpre : ∀ x ∈ pre, continuesObs (t0 + 60 * p.timeout) x)
    (h2 : o.status = 2) :
    (createMovie p res t0 (pre ++ o :: rest)).polls = pre.length + 1 ∧
    (createMovie p res t0 (pre ++ o :: rest)).sleeps =
      pre.countP (fun x => decide (x.status = 0 ∨ x.status = 1)) ∧
    (createMovie p res t0 (pre ++ o :: rest)).timeChecks = pre.length ∧
    (createMovie p res t0 (pre ++ o :: rest)).fetches = [⟨res.id, p.format, p.hq⟩] ∧
    (createMovie p res t0 (pre ++ o :: rest)).outcome =
      Outcome.ok (resolveFilename p.filename res.id p.startTime p.endTime p.format) := by
  have key := runPollLoop_append (t0 + 60 * p.timeout) pre (o :: rest) hpre
  have hcons := runPollLoop_cons_complete (t0 + 60 * p.timeout) o rest h2
  have hsleep : sleepCount o = 0 := by
    rw [sleepCount, h2]
    decide
  refine ⟨?_, ?_, ?_, ?_, ?_⟩
  · rw [createMovie_polls p res t0 _ hqe, key, hcons]
    simp [Nat.add_comm]
  · rw [createMovie_sleeps p res t0 _ hqe, key, hcons,
      ← sum_sleepCount_eq_countP]
    simp [hsleep]
  · rw [createMovie_timeChecks p res t0 _ hqe, key, hcons]
    simp
  · rw [createMovie_fetches p res t0 _ hqe, key, hcons]
    rfl
  · rw [createMovie_outcome p res t0 _ hqe, key, hcons]
    rfl

/-- C3, witness: one pending poll then a status-2 poll — two polls total,
one sleep, one deadline comparison, exactly one fetch, success. -/
theorem C3_first_complete_witness :
    (createMovie sampleParams sampleRes 0 [⟨0, none, 5⟩, ⟨2, none, 8⟩]).polls = 2 ∧
    (createMovie sampleParams sampleRes 0 [⟨0, none, 5⟩, ⟨2, none, 8⟩]).sleeps = 1 ∧
    (createMovie sampleParams sampleRes 0 [⟨0, none, 5⟩, ⟨2, none, 8⟩]).timeChecks = 1 ∧
    (createMovie sampleParams sampleRes 0 [⟨0, none, 5⟩, ⟨2, none, 8⟩]).fetches
      = [⟨"42", "mp4", false⟩] ∧
    (createMovie sampleParams sampleRes 0 [⟨0, none, 5⟩, ⟨2, none, 8⟩]).outcome
      = Outcome.ok "42_2024-01-01_2024-01-02.mp4" := by
  have hpre : ∀ x ∈ [(⟨0, none, 5⟩ : StatusObs)],
      continuesObs (0 + 60 * sampleParams.timeout) x := by
    intro x hx
    rw [List.mem_singleton] at hx
    subst hx
    refine ⟨by decide, by norm_num [sampleParams], by decide⟩
  have h := C3_first_complete sampleParams sampleRes 0 [⟨0, none, 5⟩]
    ⟨2, none, 8⟩ [] rfl hpre rfl
  exact ⟨h.1, by simpa using h.2.1, h.2.2.1, h.2.2.2.1.trans rfl,
    h.2.2.2.2.trans rfl⟩

/-! ### C4 -/

/-- C4 (confirmed): a truthy (non-empty) `error` field in the `queueMovie`
response raises `RuntimeError(res["error"])` with exactly that string
before the loop starts: zero polls and zero fetches. -/
theorem C4_submit_error (p : CreateMovieParams) (res : QueueMovieResponse)
    (t0 : Rat) (polls : List StatusObs) (e : String)
    (he : res.error = some e) (hne : e ≠ "") :
    (createMovie p res t0 polls).outcome = Outcome.remoteError e ∧
    (createMovie p res t0 polls).polls = 0 ∧
    (createMovie p res t0 polls).fetches = [] := by
  have htr : pyTruthy (some e) = true := by
    cases h : e.isEmpty
    · simp [pyTruthy, h]
    · exact absurd ((String.isEmpty_iff e).mp h) hne
  refine ⟨?_, ?_, ?_⟩ <;> simp [createMovie, he, htr]

/-- C4, witness: submit response with error "movie too large" raises it
verbatim; no poll and no fetch occur. -/
theorem C4_submit_error_witness :
    (createMovie sampleParams ⟨some "movie too large", "42", "tok"⟩ 0
        [⟨2, none, 8⟩]).outcome = Outcome.remoteError "movie too large" ∧
    (createMovie sampleParams ⟨some "movie too large", "42", "tok"⟩ 0
        [⟨2, none, 8⟩]).polls = 0 ∧
    (createMovie sampleParams ⟨some "movie too large", "42", "tok"⟩ 0
        [⟨2, none, 8⟩]).fetches = [] :=
  C4_submit_error sampleParams ⟨some "movie too large", "42", "tok"⟩ 0
    [⟨2, none, 8⟩] "movie too large" rfl (by decide)

/-! ### C5 -/

/-- C5 (confirmed): on successful completion the returned path is
`"{id}_{startDate}_{endDate}.{format}"` when the caller passed no filename,
and `"{filename}.{format}"` — independent of the job id and dates — when a
filename was supplied. -/
theorem C5_output_path (p : CreateMovieParams) (res : QueueMovieResponse)
    (t0 : Rat) (pre : List StatusObs) (o : StatusObs) (rest : List StatusObs)
    (hqe : pyTruthy res.error = false)
    (hpre : ∀ x ∈ pre, continuesObs (t0 + 60 * p.timeout) x)
    (h2 : o.status = 2) :
    (createMovie p res t0 (pre ++ o :: rest)).outcome =
      Outcome.ok (match p.filename with
        | none => res.id ++ "_" ++ p.startTime.dateStr ++ "_"
            ++ p.endTime.dateStr ++ "." ++ p.format
        | some f => f ++ "." ++ p.format) := by
  have key := runPollLoop_append (t0 + 60 * p.timeout) pre (o :: rest) hpre
  rw [createMovie_outcome p res t0 _ hqe, key,
    runPollLoop_cons_complete _ o rest h2]
  cases hf : p.filename <;> simp [outcomeOfResult, resolveFilename, hf]

/-- C5, witness: with no filename the path is synthesized from id and dates
(`"42_2024-01-01_2024-01-02.mp4"`); with filename "movie" and format "webm"
it is exactly `"movie.webm"`. -/
theorem C5_output_path_witness :
    (createMovie sampleParams sampleRes 0 [⟨2, none, 8⟩]).outcome
      = Outcome.ok "42_2024-01-01_2024-01-02.mp4" ∧
    (createMovie { sampleParams with filename := some "movie", format := "webm" }
        sampleRes 0 [⟨2, none, 8⟩]).outcome = Outcome.ok "movie.webm" := by
  constructor
  · have h := C5_output_path sampleParams sampleRes 0 [] ⟨2, none, 8⟩ []
      rfl (by simp) rfl
    exact h.trans rfl
  · have h := C5_output_path
      { sampleParams with filename := some "movie", format := "webm" }
      sampleRes 0 [] ⟨2, none, 8⟩ [] rfl (by simp) rfl
    exact h.trans rfl

/-! ### C6 -/

/-- C6, counterexample.  The claim states every `downloadMovie` call carries
both the `id` and the `token` of the submit response.  Two runs whose submit
responses differ only in the token issue identical `downloadMovie` calls:
the token is not among the arguments (`downloadMovie(id=..., format=...,
hq=...)`, helpers.py lines 112-116). -/
theorem C6_counterexample :
    (createMovie sampleParams ⟨none, "42", "token-a"⟩ 0 [⟨2, none, 8⟩]).fetches =
      (createMovie sampleParams ⟨none, "42", "token-b"⟩ 0 [⟨2, none, 8⟩]).fetches ∧
    ("token-a" : String) ≠ "token-b" :=
  ⟨rfl, by decide⟩

/-- C6 (amended): every `downloadMovie` call issued by `createMovie` carries
the submit response's `id` together with the `format` and the `hq` flag, but
not the `token`: the issued calls are invariant under changing the token of
the submit response. -/
theorem C6_fetch_args (p : CreateMovieParams) (res : QueueMovieResponse)
    (t0 : Rat) (polls : List StatusObs) (tok : String)
    (hqe : pyTruthy res.error = false) :
    ((runPollLoop (t0 + 60 * p.timeout) polls).2 = LoopResult.complete →
      (createMovie p res t0 polls).fetches = [⟨res.id, p.format, p.hq⟩]) ∧
    (createMovie p res t0 polls).fetches =
      (createMovie p ⟨res.error, res.id, tok⟩ t0 polls).fetches := by
  constructor
  · intro hc
    rw [createMovie_fetches p res t0 polls hqe, hc]
    rfl
  · rw [createMovie_fetches p res t0 polls hqe,
      createMovie_fetches p ⟨res.error, res.id, tok⟩ t0 polls hqe]

/-- C6, witness for the amended theorem: a completed run fetches with
`id="42"`, `format="mp4"`, `hq=false`, identically for tokens
"sample-token" and "other". -/
theorem C6_fetch_args_witness :
    (createMovie sampleParams sampleRes 0 [⟨2, none, 8⟩]).fetches
      = [⟨"42", "mp4", false⟩] ∧
    (createMovie sampleParams sampleRes 0 [⟨2, none, 8⟩]).fetches =
      (createMovie sampleParams ⟨none, "42", "other"⟩ 0 [⟨2, none, 8⟩]).fetches := by
  have h := C6_fetch_args sampleParams sampleRes 0 [⟨2, none, 8⟩] "other" rfl
  exact ⟨(h.1 rfl).trans rfl, h.2⟩

/-! ### C7 -/

/-- C7 (confirmed): a poll returning a status code outside {0, 1, 2, 3}
before the deadline neither exits the loop nor raises: the run behaves as
if that observation were removed, except for the one extra poll issued. -/
theorem C7_unknown_code (p : CreateMovieParams) (res : QueueMovieResponse)
    (t0 : Rat) (pre : List StatusObs) (o : StatusObs) (rest : List StatusObs)
    (hqe : pyTruthy res.error = false)
    (hpre : ∀ x ∈ pre, continuesObs (t0 + 60 * p.timeout) x)
    (h0 : o.status ≠ 0) (h1 : o.status ≠ 1) (h2 : o.status ≠ 2)
    (h3 : o.status ≠ 3) (ht : ¬ o.tcheck > t0 + 60 * p.timeout) :
    (createMovie p res t0 (pre ++ o :: rest)).outcome =
      (createMovie p res t0 (pre ++ rest)).outcome ∧
    (createMovie p res t0 (pre ++ o :: rest)).fetches =
      (createMovie p res t0 (pre ++ rest)).fetches ∧
    (createMovie p res t0 (pre ++ o :: rest)).polls =
      (createMovie p res t0 (pre ++ rest)).polls + 1 := by
  have ho : continuesObs (t0 + 60 * p.timeout) o := ⟨h2, ht, h3⟩
  have hpre' : ∀ x ∈ pre ++ [o], continuesObs (t0 + 60 * p.timeout) x := by
    intro x hx
    rcases List.mem_append.mp hx with hx | hx
    · exact hpre x hx
    · rw [List.mem_singleton] at hx
      subst hx
      exact ho
  have hlist : pre ++ o :: rest = (pre ++ [o]) ++ rest := by
    simp
  have key1 := runPollLoop_append (t0 + 60 * p.timeout) (pre ++ [o]) rest hpre'
  have key2 := runPollLoop_append (t0 + 60 * p.timeout) pre rest hpre
  refine ⟨?_, ?_, ?_⟩
  · rw [createMovie_outcome p res t0 _ hqe, createMovie_outcome p res t0 _ hqe,
      hlist, key1, key2]
  · rw [createMovie_fetches p res t0 _ hqe, createMovie_fetches p res t0 _ hqe,
      hlist, key1, key2]
  · rw [createMovie_polls p res t0 _ hqe, createMovie_polls p res t0 _ hqe,
      hlist, key1, key2]
    simp
    omega

/-- C7, witness: a first poll with unknown status 7 before the deadline is
followed by a status-2 poll; the run's outcome and fetches match the run
without the unknown-status poll, with one extra poll. -/
theorem C7_unknown_code_witness :
    (createMovie sampleParams sampleRes 0 [⟨7, none, 50⟩, ⟨2, none, 60⟩]).outcome =
      (createMovie sampleParams sampleRes 0 [⟨2, none, 60⟩]).outcome ∧
    (createMovie sampleParams sampleRes 0 [⟨7, none, 50⟩, ⟨2, none, 60⟩]).fetches =
      (createMovie sampleParams sampleRes 0 [⟨2, none, 60⟩]).fetches ∧
    (createMovie sampleParams sampleRes 0 [⟨7, none, 50⟩, ⟨2, none, 60⟩]).polls =
      (createMovie sampleParams sampleRes 0 [⟨2, none, 60⟩]).polls + 1 := by
  have h := C7_unknown_code sampleParams sampleRes 0 [] ⟨7, none, 50⟩
    [⟨2, none, 60⟩] rfl (by simp) (by decide) (by decide) (by decide) (by decide)
    (by norm_num [sampleParams])
  exact h

/-! ### C8 -/

/-- C8 (confirmed): `overwrite`, `filename`, `hq` and `timeout` are popped
from `input_params` before the `queueMovie` call, so two invocations
differing only in these four parameters pass the identical argument set to
`queueMovie`. -/
theorem C8_policy_not_submitted (p : CreateMovieParams) (ow : Bool)
    (fn : Option String) (hqv : Bool) (tm : Rat) (res : QueueMovieResponse)
    (t0 : Rat) (polls : List StatusObs) :
    (createMovie { p with overwrite := ow, filename := fn, hq := hqv, timeout := tm }
        res t0 polls).queueArgs = (createMovie p res t0 polls).queueArgs := by
  cases hb : pyTruthy res.error <;> simp [createMovie, hb, queueArgsOf]

/-! ### C9 -/

/-- C9 (confirmed): when a poll returns status 3 at or before the deadline,
the code evaluates `status["error"]` unguarded: with the `error` field
present the run raises the service message as a `RuntimeError`, and with the
field absent the lookup itself fails (a `KeyError`), which is never equal to
a remote-message error. -/
theorem C9_status3_error_lookup (p : CreateMovieParams) (res : QueueMovieResponse)
    (t0 : Rat) (pre : List StatusObs) (o : StatusObs) (rest : List StatusObs)
    (hqe : pyTruthy res.error = false)
    (hpre : ∀ x ∈ pre, continuesObs (t0 + 60 * p.timeout) x)
    (h3 : o.status = 3) (ht : ¬ o.tcheck > t0 + 60 * p.timeout) :
    (o.error = none →
      (createMovie p res t0 (pre ++ o :: rest)).outcome = Outcome.keyError "error") ∧
    (∀ e, o.error = some e →
      (createMovie p res t0 (pre ++ o :: rest)).outcome = Outcome.remoteError e) ∧
    (∀ m, Outcome.keyError "error" ≠ Outcome.remoteError m) := by
  have key := runPollLoop_append (t0 + 60 * p.timeout) pre (o :: rest) hpre
  refine ⟨?_, ?_, ?_⟩
  · intro he
    rw [createMovie_outcome p res t0 _ hqe, key,
      runPollLoop_cons_failed _ o rest ht h3, he]
    rfl
  · intro e he
    rw [createMovie_outcome p res t0 _ hqe, key,
      runPollLoop_cons_failed _ o rest ht h3, he]
    rfl
  · intro m h
    exact Outcome.noConfusion h

/-- C9, witness: a status-3 response without an `error` field yields the
`KeyError`; with `error="disk full"` it yields the remote message. -/
theorem C9_status3_error_lookup_witness :
    (createMovie sampleParams sampleRes 0 [⟨3, none, 10⟩]).outcome
      = Outcome.keyError "error" ∧
    (createMovie sampleParams sampleRes 0 [⟨3, some "disk full", 10⟩]).outcome
      = Outcome.remoteError "disk full" := by
  constructor
  · exact (C9_status3_error_lookup sampleParams sampleRes 0 [] ⟨3, none, 10⟩ []
      rfl (by simp) rfl (by norm_num [sampleParams])).1 rfl
  · exact (C9_status3_error_lookup sampleParams sampleRes 0 []
      ⟨3, some "disk full", 10⟩ [] rfl (by simp) rfl
      (by norm_num [sampleParams])).2.1 "disk full" rfl

/-! ### C10 -/

/-- C10 (confirmed): across any prefix of polls that fall through to the
next iteration, `time.sleep(3)` happens exactly once per poll whose status
is 0 or 1 — a fallen-through poll with any other (unrecognized) status
contributes a poll but no sleep, so the next poll follows immediately. -/
theorem C10_sleep_iff_pending (p : CreateMovieParams) (res : QueueMovieResponse)
    (t0 : Rat) (pre rest : List StatusObs)
    (hqe : pyTruthy res.error = false)
    (hpre : ∀ x ∈ pre, continuesObs (t0 + 60 * p.timeout) x) :
    (createMovie p res t0 (pre ++ rest)).sleeps =
      pre.countP (fun x => decide (x.status = 0 ∨ x.status = 1)) +
        (createMovie p res t0 rest).sleeps ∧
    (createMovie p res t0 (pre ++ rest)).polls =
      pre.length + (createMovie p res t0 rest).polls := by
  have key := runPollLoop_append (t0 + 60 * p.timeout) pre rest hpre
  constructor
  · rw [createMovie_sleeps p res t0 _ hqe, createMovie_sleeps p res t0 rest hqe,
      key, ← sum_sleepCount_eq_countP]
    simp [Nat.add_comm]
  · rw [createMovie_polls p res t0 _ hqe, createMovie_polls p res t0 rest hqe, key]
    simp [Nat.add_comm]

/-- C10, witness: a pending poll (status 0) and an unknown-status poll
(status 9) both fall through; the run sleeps once (for the status-0 poll
only) and polls twice more than the remaining run. -/
theorem C10_sleep_iff_pending_witness :
    (createMovie sampleParams sampleRes 0
        [⟨0, none, 1⟩, ⟨9, none, 2⟩, ⟨2, none, 3⟩]).sleeps =
      1 + (createMovie sampleParams sampleRes 0 [⟨2, none, 3⟩]).sleeps ∧
    (createMovie sampleParams sampleRes 0
        [⟨0, none, 1⟩, ⟨9, none, 2⟩, ⟨2, none, 3⟩]).polls =
      2 + (createMovie sampleParams sampleRes 0 [⟨2, none, 3⟩]).polls := by
  have hpre : ∀ x ∈ [(⟨0, none, 1⟩ : StatusObs), ⟨9, none, 2⟩],
      continuesObs (0 + 60 * sampleParams.timeout) x := by
    intro x hx
    simp only [List.mem_cons, List.not_mem_nil, or_false] at hx
    rcases hx with rfl | rfl
    · exact ⟨by decide, by norm_num [sampleParams], by decide⟩
    · exact ⟨by decide, by norm_num [sampleParams], by decide⟩
  have h := C10_sleep_iff_pending sampleParams sampleRes 0
    [⟨0, none, 1⟩, ⟨9, none, 2⟩] [⟨2, none, 3⟩] rfl hpre
  exact h
